import Mathlib

/-!
Shallow embedding of the wallpaper-generator frontend
(src/frontend/src/components/WallpaperGenerator.jsx: the
WallpaperGenerator controller component and the PhonePreview
presentational component).

The controller keeps five pieces of React state: prompt, style,
isGenerating, generatedImage and error.  `generateWallpaper` is the
submit handler; it performs at most one POST request and updates the
state from the response.  `downloadWallpaper` builds a client-side
file-save action.  PhonePreview renders one of three visual states
from (imageUrl, isLoading).

JavaScript optional string values (null / undefined / string) are
modelled as `Option String`; JavaScript truthiness of such a value
(false for null, undefined and the empty string) is `jsTruthy`, and
the JavaScript `x || fallback` idiom on them is `jsOr`.
-/

namespace WallpaperApp

/-- JavaScript `String.prototype.trim()`: strip whitespace from both
ends of the string.  (The prompts in this model are ASCII, where the
JS and Lean whitespace classes agree.) -/
def jsTrim (s : String) : String :=
  String.mk (((s.data.dropWhile Char.isWhitespace).reverse.dropWhile
    Char.isWhitespace).reverse)

/-- Truthiness of a JavaScript value that is either a string or
null/undefined: null, undefined and `""` are falsy. -/
def jsTruthy : Option String → Bool
  | none => false
  | some s => s ≠ ""

/-- The JavaScript expression `v || fallback` for such a value. -/
def jsOr (v : Option String) (fallback : String) : String :=
  match v with
  | none => fallback
  | some s => if s = "" then fallback else s

/-- Line 12: `const API_BASE = process.env.REACT_APP_API_URL || 'http://localhost:8000'`.
The environment variable is `none` when unset. -/
def API_BASE (env : Option String) : String :=
  jsOr env "http://localhost:8000"

/-- Line 13: `const API = API_BASE + '/api'`. -/
def API (env : Option String) : String :=
  API_BASE env ++ "/api"

/-- The React state of the WallpaperGenerator component (lines 16-20). -/
structure ControllerState where
  prompt : String
  style : String
  isGenerating : Bool
  generatedImage : Option String
  error : Option String
deriving Repr, DecidableEq

/-- Initial state from the useState initialisers (lines 16-20). -/
def initState : ControllerState :=
  { prompt := "", style := "", isGenerating := false,
    generatedImage := none, error := none }

/-- Body of the POST request (lines 48-50). -/
structure RequestBody where
  prompt : String
  style : String
  aspect_ratio : String
deriving Repr, DecidableEq

/-- An HTTP request issued by the component. -/
structure HttpRequest where
  method : String
  url : String
  body : RequestBody
deriving Repr, DecidableEq

/-- How the single awaited axios call resolves.  `response` is a
resolved (2xx) response carrying the parsed body fields
`{ success, image_url?, error? }`; `transportFailure` is a rejected
promise (network error, timeout, or non-2xx status, which axios
throws), carrying its diagnostic detail. -/
inductive ApiOutcome where
  | response (success : Bool) (imageUrl : Option String) (error : Option String)
  | transportFailure (detail : String)
deriving Repr, DecidableEq

/-- Result of running the submit handler: the state after the handler
finishes, the requests it issued, and what it wrote to the
developer-facing console error channel. -/
structure SubmitResult where
  state : ControllerState
  requests : List HttpRequest
  consoleErrors : List String
deriving Repr, DecidableEq

/-- The synchronous part of `generateWallpaper` before the `await`
(lines 37-51): guard on the trimmed prompt, set isGenerating, clear
the error, issue the POST.  Returns the state at the suspension point
and the list of requests issued (empty on the validation path). -/
def submitPre (env : Option String) (s : ControllerState) :
    ControllerState × List HttpRequest :=
  if jsTrim s.prompt = "" then
    ({ s with error := some "Please enter a prompt" }, [])
  else
    ({ s with isGenerating := true, error := none },
     [{ method := "POST",
        url := API env ++ "/generate-wallpaper",
        body := { prompt := jsTrim s.prompt, style := s.style,
                  aspect_ratio := "9:16" } }])

/-- The continuation of `generateWallpaper` after the `await`
(lines 53-63): then/catch plus the `finally` that clears
isGenerating.  Returns the new state and the console error lines. -/
def submitPost (s : ControllerState) (o : ApiOutcome) :
    ControllerState × List String :=
  match o with
  | .response success imageUrl err =>
      if success then
        ({ s with generatedImage := imageUrl, isGenerating := false }, [])
      else
        ({ s with error := some (jsOr err "Failed to generate wallpaper"),
                  isGenerating := false }, [])
  | .transportFailure detail =>
      ({ s with error := some "Failed to generate wallpaper. Please try again.",
                isGenerating := false },
       ["Error generating wallpaper: " ++ detail])

/-- The whole `generateWallpaper` handler (lines 37-64), given the
outcome its single awaited call resolves to.  On the validation path
the await is never reached and the outcome is ignored. -/
def generateWallpaper (env : Option String) (s : ControllerState)
    (o : ApiOutcome) : SubmitResult :=
  if (submitPre env s).2 = [] then
    { state := (submitPre env s).1, requests := [], consoleErrors := [] }
  else
    { state := (submitPost (submitPre env s).1 o).1,
      requests := (submitPre env s).2,
      consoleErrors := (submitPost (submitPre env s).1 o).2 }

/-- The client-side file-save action built by `downloadWallpaper`
(lines 68-72): an anchor element with href, download name and
target. -/
structure SaveAction where
  href : String
  filename : String
  target : String
deriving Repr, DecidableEq

/-- `downloadWallpaper` (lines 66-74).  `now` is the value of
`Date.now()` in milliseconds.  Returns the save action it clicks, or
`none` when the `if (generatedImage)` guard fails. -/
def downloadWallpaper (generatedImage : Option String) (now : Nat) :
    Option SaveAction :=
  if jsTruthy generatedImage then
    some { href := generatedImage.getD "",
           filename := "wallpaper-" ++ toString now ++ ".jpg",
           target := "_blank" }
  else
    none

/-- The spec's derived UIStatus {Idle, Generating, Succeeded, Failed},
read off the component state: the loading flag wins, then a stored
error means Failed, then a stored image means Succeeded. -/
inductive UIStatus where
  | Idle
  | Generating
  | Succeeded
  | Failed
deriving Repr, DecidableEq

/-- Refinement mapping from the component state to the spec's
UIStatus. -/
def status (s : ControllerState) : UIStatus :=
  if s.isGenerating then .Generating
  else if s.error.isSome then .Failed
  else if s.generatedImage.isSome then .Succeeded
  else .Idle

/-- The `disabled={isGenerating}` prop of both submit buttons
(lines 137 and 210). -/
def generateButtonDisabled (s : ControllerState) : Bool :=
  s.isGenerating

/-- The three mutually exclusive visual states of PhonePreview
(lines 268-291). -/
inductive PreviewState where
  | loading
  | image (url : String) (objectFit : String)
  | placeholder (caption : String)
deriving Repr, DecidableEq

/-- PhonePreview's wallpaper-display ternary (lines 269-290):
loading spinner when isLoading, else the image (object-cover) when
imageUrl is truthy, else the placeholder glyph and caption. -/
def PhonePreview (imageUrl : Option String) (isLoading : Bool) :
    PreviewState :=
  if isLoading then .loading
  else if jsTruthy imageUrl then .image (imageUrl.getD "") "cover"
  else .placeholder "Your wallpaper will appear here"

/-! ## Event-level model

The UI event loop: a system state is the controller state together
with the list of issued-but-unresolved requests.  A click on a
disabled button does not invoke its onClick handler, so a submit
attempt while `generateButtonDisabled` is a no-op. -/

/-- System state: component state plus the in-flight requests. -/
structure SystemState where
  ctrl : ControllerState
  inFlight : List HttpRequest
deriving Repr, DecidableEq

/-- Initial system state: fresh component, nothing in flight. -/
def initSystem : SystemState :=
  { ctrl := initState, inFlight := [] }

/-- UI events: a click on the generate/regenerate button, the
resolution of the in-flight request, and the two input handlers. -/
inductive UiEvent where
  | submitClick
  | resolve (o : ApiOutcome)
  | setPromptEvent (text : String)
  | setStyleEvent (label : String)
deriving Repr, DecidableEq

/-- One step of the event loop.  A submit click while the button is
disabled (isGenerating) does nothing; otherwise it runs the handler
up to its suspension point.  `resolve` delivers the outcome to the
continuation; with nothing in flight it does nothing. -/
def step (env : Option String) (σ : SystemState) (e : UiEvent) :
    SystemState :=
  match e with
  | .submitClick =>
      if generateButtonDisabled σ.ctrl then σ
      else
        { ctrl := (submitPre env σ.ctrl).1,
          inFlight := σ.inFlight ++ (submitPre env σ.ctrl).2 }
  | .resolve o =>
      match σ.inFlight with
      | [] => σ
      | _ :: rest => { ctrl := (submitPost σ.ctrl o).1, inFlight := rest }
  | .setPromptEvent t => { σ with ctrl := { σ.ctrl with prompt := t } }
  | .setStyleEvent t => { σ with ctrl := { σ.ctrl with style := t } }

/-- Run a list of events from a system state. -/
def run (env : Option String) (σ : SystemState) (es : List UiEvent) :
    SystemState :=
  es.foldl (step env) σ

/-- The coupling invariant of the event loop: the loading flag counts
the in-flight requests. -/
def FlightInv (σ : SystemState) : Prop :=
  σ.inFlight.length = (if σ.ctrl.isGenerating then 1 else 0)

/-! ## Helper lemmas -/

/-- Every branch of the continuation ends with the `finally` clause
clearing the loading flag. -/
theorem submitPost_isGenerating (s : ControllerState) (o : ApiOutcome) :
    (submitPost s o).1.isGenerating = false := by
  cases o with
  | response success imageUrl err =>
      by_cases h : success = true <;> simp [submitPost, h]
  | transportFailure detail => simp [submitPost]

/-- One step of the event loop preserves the coupling invariant. -/
theorem flightInv_step (env : Option String) (σ : SystemState) (e : UiEvent)
    (h : FlightInv σ) : FlightInv (step env σ e) := by
  cases e with
  | submitClick =>
      by_cases hg : generateButtonDisabled σ.ctrl = true
      · simpa [step, hg] using h
      · have hgen : σ.ctrl.isGenerating = false := by
          simpa [generateButtonDisabled] using hg
        have hlen : σ.inFlight = [] := by
          have := h
          rw [FlightInv, hgen] at this
          simpa using List.eq_nil_of_length_eq_zero this
        by_cases hp : jsTrim σ.ctrl.prompt = "" <;>
          simp [step, hg, submitPre, hp, FlightInv, hlen, hgen]
  | resolve o =>
      cases hin : σ.inFlight with
      | nil => simpa [step, hin] using h
      | cons r rest =>
          have hgen : σ.ctrl.isGenerating = true := by
            by_contra hfalse
            rw [FlightInv, hin, if_neg hfalse] at h
            simp at h
          have hrest : rest = [] := by
            rw [FlightInv, hin, if_pos hgen] at h
            simpa using h
          simp [step, hin, FlightInv, submitPost_isGenerating, hrest]
  | setPromptEvent t => simpa [step, FlightInv] using h
  | setStyleEvent t => simpa [step, FlightInv] using h

/-- The coupling invariant holds after any run that starts in a state
satisfying it. -/
theorem flightInv_run (env : Option String) (σ : SystemState)
    (es : List UiEvent) (h : FlightInv σ) : FlightInv (run env σ es) := by
  induction es generalizing σ with
  | nil => exact h
  | cons e es ih => exact ih (step env σ e) (flightInv_step env σ e h)

/-- Concatenation of strings is associative (used to rewrite the
endpoint URL built in two steps into base-plus-path form). -/
theorem string_append_assoc (a b c : String) :
    a ++ b ++ c = a ++ (b ++ c) := by
  cases a with | mk la =>
  cases b with | mk lb =>
  cases c with | mk lc =>
  show String.mk (la ++ lb ++ lc) = String.mk (la ++ (lb ++ lc))
  rw [List.append_assoc]

/-! ## Claims -/

/-- C2: submitting with a prompt that is empty or whitespace-only after
trimming issues no network call, stores the fixed validation message
"Please enter a prompt", and leaves the component in the Failed
state. -/
theorem submit_empty_prompt_validation (env : Option String)
    (s : ControllerState) (o : ApiOutcome)
    (hempty : jsTrim s.prompt = "") (hidle : s.isGenerating = false) :
    (generateWallpaper env s o).requests = [] ∧
    (generateWallpaper env s o).state.error = some "Please enter a prompt" ∧
    status (generateWallpaper env s o).state = .Failed := by
  have h1 : submitPre env s = ({ s with error := some "Please enter a prompt" }, []) := by
    rw [submitPre, if_pos hempty]
  simp [generateWallpaper, h1, status, hidle]

/-- Witness for the C2 theorem at a whitespace-only prompt. -/
theorem submit_empty_prompt_validation_witness :
    (generateWallpaper none { initState with prompt := "   " }
        (.response true (some "u") none)).requests = [] ∧
    (generateWallpaper none { initState with prompt := "   " }
        (.response true (some "u") none)).state.error =
      some "Please enter a prompt" ∧
    status (generateWallpaper none { initState with prompt := "   " }
        (.response true (some "u") none)).state = .Failed :=
  submit_empty_prompt_validation none { initState with prompt := "   " }
    (.response true (some "u") none) (by decide) (by decide)

/-- C3: in any run of the event loop from the initial state, at most one
request is in flight, and a submit click while the affordance is
disabled (status Generating) is a no-op on the whole system state, so
the in-flight request is neither queued behind nor cancelled. -/
theorem at_most_one_in_flight (env : Option String) (es : List UiEvent) :
    (run env initSystem es).inFlight.length ≤ 1 ∧
    (generateButtonDisabled (run env initSystem es).ctrl = true →
      step env (run env initSystem es) .submitClick = run env initSystem es) := by
  have h : FlightInv (run env initSystem es) :=
    flightInv_run env initSystem es (by simp [FlightInv, initSystem, initState])
  refine ⟨?_, ?_⟩
  · rw [FlightInv] at h
    split at h <;> omega
  · intro hd
    simp [step, hd]

/-- Witness for the C3 theorem: a run with a second submit click while
the first request is still in flight. -/
theorem at_most_one_in_flight_witness :
    (run none initSystem [UiEvent.setPromptEvent "cat", UiEvent.submitClick,
        UiEvent.submitClick]).inFlight.length ≤ 1 ∧
    (generateButtonDisabled (run none initSystem [UiEvent.setPromptEvent "cat",
        UiEvent.submitClick, UiEvent.submitClick]).ctrl = true →
      step none (run none initSystem [UiEvent.setPromptEvent "cat",
        UiEvent.submitClick, UiEvent.submitClick]) .submitClick =
      run none initSystem [UiEvent.setPromptEvent "cat", UiEvent.submitClick,
        UiEvent.submitClick]) :=
  at_most_one_in_flight none [UiEvent.setPromptEvent "cat",
    UiEvent.submitClick, UiEvent.submitClick]

/-- C5: a transport failure (network error, timeout, or non-2xx status,
all of which reject the axios promise) ends in the Failed state with
the fixed fallback message — independent of the raw transport detail —
while the detail goes only to the console error channel. -/
theorem transport_failure_handling (env : Option String)
    (s : ControllerState) (detail : String) (hp : jsTrim s.prompt ≠ "") :
    status (generateWallpaper env s (.transportFailure detail)).state
      = .Failed ∧
    (generateWallpaper env s (.transportFailure detail)).state.error =
      some "Failed to generate wallpaper. Please try again." ∧
    (generateWallpaper env s (.transportFailure detail)).consoleErrors =
      ["Error generating wallpaper: " ++ detail] := by
  simp [generateWallpaper, submitPre, hp, submitPost, status]

/-- Witness for the C5 theorem at a concrete transport failure. -/
theorem transport_failure_handling_witness :
    status (generateWallpaper none { initState with prompt := "cat" }
        (.transportFailure "ECONNREFUSED")).state = .Failed ∧
    (generateWallpaper none { initState with prompt := "cat" }
        (.transportFailure "ECONNREFUSED")).state.error =
      some "Failed to generate wallpaper. Please try again." ∧
    (generateWallpaper none { initState with prompt := "cat" }
        (.transportFailure "ECONNREFUSED")).consoleErrors =
      ["Error generating wallpaper: " ++ "ECONNREFUSED"] :=
  transport_failure_handling none { initState with prompt := "cat" }
    "ECONNREFUSED" (by decide)

/-- C6: a response with success = true and image_url = u ends in the
Succeeded state with the stored image reference equal to u (and no
stored error, since submit cleared it). -/
theorem successful_generation (env : Option String) (s : ControllerState)
    (u : String) (errField : Option String) (hp : jsTrim s.prompt ≠ "") :
    status (generateWallpaper env s
        (.response true (some u) errField)).state = .Succeeded ∧
    (generateWallpaper env s
        (.response true (some u) errField)).state.generatedImage = some u ∧
    (generateWallpaper env s
        (.response true (some u) errField)).state.error = none := by
  simp [generateWallpaper, submitPre, hp, submitPost, status]

/-- Witness for the C6 theorem at the response from the spec example. -/
theorem successful_generation_witness :
    status (generateWallpaper none { initState with prompt := "cat" }
        (.response true (some "https://x/y.jpg") none)).state = .Succeeded ∧
    (generateWallpaper none { initState with prompt := "cat" }
        (.response true (some "https://x/y.jpg") none)).state.generatedImage
      = some "https://x/y.jpg" ∧
    (generateWallpaper none { initState with prompt := "cat" }
        (.response true (some "https://x/y.jpg") none)).state.error = none :=
  successful_generation none { initState with prompt := "cat" }
    "https://x/y.jpg" none (by decide)

/-- C8: every request issued by submit is a single POST to the
configured base URL plus /api/generate-wallpaper carrying exactly
the body with the trimmed prompt, the style and the fixed 9:16 aspect
value; the base URL defaults to the local development address when the
environment value is unset. -/
theorem request_shape (env : Option String) (s : ControllerState)
    (o : ApiOutcome) (hp : jsTrim s.prompt ≠ "") :
    (generateWallpaper env s o).requests =
      [{ method := "POST",
         url := API_BASE env ++ "/api/generate-wallpaper",
         body := { prompt := jsTrim s.prompt, style := s.style,
                   aspect_ratio := "9:16" } }] ∧
    API_BASE none = "http://localhost:8000" := by
  refine ⟨?_, rfl⟩
  have hurl : API env ++ "/generate-wallpaper"
      = API_BASE env ++ "/api/generate-wallpaper" := by
    have hx : ("/api" : String) ++ "/generate-wallpaper"
        = "/api/generate-wallpaper" := by decide
    rw [API, string_append_assoc, hx]
  simp [generateWallpaper, submitPre, hp, hurl]

/-- Witness for the C8 theorem with the environment value unset. -/
theorem request_shape_witness :
    (generateWallpaper none { initState with prompt := " cat " }
        (.response true (some "u") none)).requests =
      [{ method := "POST",
         url := API_BASE none ++ "/api/generate-wallpaper",
         body := { prompt := jsTrim " cat ", style := "",
                   aspect_ratio := "9:16" } }] ∧
    API_BASE none = "http://localhost:8000" :=
  request_shape none { initState with prompt := " cat " }
    (.response true (some "u") none) (by decide)

/-- Reduction of submitPre on a prompt that trims to empty. -/
theorem submitPre_empty (env : Option String) (s : ControllerState)
    (hp : jsTrim s.prompt = "") :
    submitPre env s =
      ({ s with error := some "Please enter a prompt" }, []) := by
  rw [submitPre, if_pos hp]

/-- Reduction of submitPre on a prompt that does not trim to empty. -/
theorem submitPre_nonempty (env : Option String) (s : ControllerState)
    (hp : jsTrim s.prompt ≠ "") :
    submitPre env s =
      ({ s with isGenerating := true, error := none },
       [{ method := "POST",
          url := API env ++ "/generate-wallpaper",
          body := { prompt := jsTrim s.prompt, style := s.style,
                    aspect_ratio := "9:16" } }]) := by
  rw [submitPre, if_neg hp]

/-- First submission of the scenario refuting the exclusivity claim: a
successful generation from a fresh component. -/
def succeededState : ControllerState :=
  (generateWallpaper none { initState with prompt := "cat" }
    (.response true (some "https://x/y.jpg") none)).state

/-- Second submission of the scenario: a resubmission that the server
rejects. -/
def failedAfterSuccessState : ControllerState :=
  (generateWallpaper none succeededState
    (.response false none (some "bad prompt"))).state

/-- C1 counterexample: after a successful generation followed by a
rejected resubmission, the state is terminal (Failed) yet the stored
image reference and the stored error message are both set at once. -/
theorem terminal_exclusive_counterexample :
    status failedAfterSuccessState = .Failed ∧
    failedAfterSuccessState.generatedImage = some "https://x/y.jpg" ∧
    failedAfterSuccessState.error = some "bad prompt" := by decide

/-- C1 amended: after a submission ends Succeeded, the image reference
is set and the error message is cleared (exactly one is set); after a
submission ends Failed, the error message is set while the image
reference keeps its prior value — so at least one is set, and a stale
reference from an earlier success may be set alongside the error. -/
theorem terminal_state_discrimination (env : Option String)
    (s : ControllerState) (o : ApiOutcome) :
    (status (generateWallpaper env s o).state = .Succeeded →
      (generateWallpaper env s o).state.generatedImage.isSome = true ∧
      (generateWallpaper env s o).state.error = none) ∧
    (status (generateWallpaper env s o).state = .Failed →
      (generateWallpaper env s o).state.error.isSome = true ∧
      (generateWallpaper env s o).state.generatedImage = s.generatedImage) := by
  by_cases hp : jsTrim s.prompt = ""
  · have h1 := submitPre_empty env s hp
    by_cases hg : s.isGenerating = true <;>
      simp [generateWallpaper, h1, status, hg]
  · have h1 := submitPre_nonempty env s hp
    cases o with
    | response success imageUrl err =>
        by_cases hs : success = true
        · cases imageUrl <;>
            simp [generateWallpaper, h1, submitPost, hs, status]
        · simp [generateWallpaper, h1, submitPost, hs, status]
    | transportFailure detail =>
        simp [generateWallpaper, h1, submitPost, status]

/-- A component state holding an image reference from an earlier
successful generation, with a fresh prompt typed in. -/
def priorImageState : ControllerState :=
  { initState with prompt := "cat", generatedImage := some "old.jpg" }

/-- Witness for the amended C1 theorem: a transport failure striking a
component that already holds a generated image. -/
theorem terminal_state_discrimination_witness :
    (status (generateWallpaper none priorImageState
        (.transportFailure "boom")).state = .Succeeded →
      (generateWallpaper none priorImageState
        (.transportFailure "boom")).state.generatedImage.isSome = true ∧
      (generateWallpaper none priorImageState
        (.transportFailure "boom")).state.error = none) ∧
    (status (generateWallpaper none priorImageState
        (.transportFailure "boom")).state = .Failed →
      (generateWallpaper none priorImageState
        (.transportFailure "boom")).state.error.isSome = true ∧
      (generateWallpaper none priorImageState
        (.transportFailure "boom")).state.generatedImage =
        priorImageState.generatedImage) :=
  terminal_state_discrimination none priorImageState (.transportFailure "boom")

/-- C4 counterexample: a failure response whose error field is present
but empty displays the fixed fallback string, not the (empty)
server-supplied string. -/
theorem server_error_message_counterexample :
    (some ("" : String)).isSome = true ∧
    (generateWallpaper none { initState with prompt := "cat" }
        (.response false none (some ""))).state.error =
      some "Failed to generate wallpaper" ∧
    (generateWallpaper none { initState with prompt := "cat" }
        (.response false none (some ""))).state.error ≠ some "" := by decide

/-- C4 amended: a success = false response ends in the Failed state; the
displayed message equals the server-supplied error string when that
string is present and non-empty, and the fixed fallback string when it
is absent or empty. -/
theorem server_reported_failure (env : Option String) (s : ControllerState)
    (imageUrl err : Option String) (hp : jsTrim s.prompt ≠ "") :
    status (generateWallpaper env s (.response false imageUrl err)).state
      = .Failed ∧
    (∀ m, err = some m → m ≠ "" →
      (generateWallpaper env s (.response false imageUrl err)).state.error
        = some m) ∧
    ((err = none ∨ err = some "") →
      (generateWallpaper env s (.response false imageUrl err)).state.error
        = some "Failed to generate wallpaper") := by
  have h1 := submitPre_nonempty env s hp
  refine ⟨?_, ?_, ?_⟩
  · simp [generateWallpaper, h1, submitPost, status]
  · intro m hm hne
    subst hm
    simp [generateWallpaper, h1, submitPost, jsOr, hne]
  · intro hcase
    rcases hcase with h | h <;> subst h <;>
      simp [generateWallpaper, h1, submitPost, jsOr]

/-- Witness for the amended C4 theorem at the response from the spec
example: success = false with error "bad prompt" displays exactly
"bad prompt". -/
theorem server_reported_failure_witness :
    status (generateWallpaper none { initState with prompt := "cat" }
        (.response false none (some "bad prompt"))).state = .Failed ∧
    (generateWallpaper none { initState with prompt := "cat" }
        (.response false none (some "bad prompt"))).state.error
      = some "bad prompt" :=
  ⟨(server_reported_failure none { initState with prompt := "cat" }
      none (some "bad prompt") (by decide)).1,
   (server_reported_failure none { initState with prompt := "cat" }
      none (some "bad prompt") (by decide)).2.1 "bad prompt" rfl (by decide)⟩

/-- C7 counterexample: the empty string is a present (non-None) image
reference, yet with isLoading = false PhonePreview renders the
placeholder, not the image. -/
theorem preview_present_counterexample :
    (some ("" : String)).isSome = true ∧
    PhonePreview (some "") false =
      .placeholder "Your wallpaper will appear here" := by decide

/-- C7 amended: PhonePreview is a pure function of (imageReference,
isLoading): whenever isLoading is true it renders the loading
indicator, even over a stale non-None reference; with isLoading false
it renders the cover-cropped image when the reference is present and
non-empty, and the placeholder glyph and caption when the reference is
absent or empty. -/
theorem preview_three_states (imageUrl : Option String) (isLoading : Bool) :
    (isLoading = true → PhonePreview imageUrl isLoading = .loading) ∧
    (isLoading = false → ∀ u, imageUrl = some u → u ≠ "" →
      PhonePreview imageUrl isLoading = .image u "cover") ∧
    (isLoading = false → (imageUrl = none ∨ imageUrl = some "") →
      PhonePreview imageUrl isLoading =
        .placeholder "Your wallpaper will appear here") := by
  refine ⟨?_, ?_, ?_⟩
  · intro h
    simp [PhonePreview, h]
  · intro h u hu hne
    subst hu
    simp [PhonePreview, h, jsTruthy, hne]
  · intro h hcase
    rcases hcase with hc | hc <;> subst hc <;>
      simp [PhonePreview, h, jsTruthy]

/-- Witness for the amended C7 theorem: all three render branches at
concrete inputs, including the loading state over a stale non-None
reference. -/
theorem preview_three_states_witness :
    PhonePreview (some "stale.jpg") true = .loading ∧
    PhonePreview (some "a.jpg") false = .image "a.jpg" "cover" ∧
    PhonePreview none false = .placeholder "Your wallpaper will appear here" :=
  ⟨(preview_three_states (some "stale.jpg") true).1 rfl,
   (preview_three_states (some "a.jpg") false).2.1 rfl "a.jpg" rfl (by decide),
   (preview_three_states none false).2.2 rfl (Or.inl rfl)⟩

/-- C9 counterexample: the empty string is an existing (non-None) image
reference, yet downloadWallpaper performs no file-save action on it. -/
theorem download_empty_reference_counterexample :
    (some ("" : String)).isSome = true ∧
    downloadWallpaper (some "") 1726000000000 = none := by decide

/-- C9 amended: downloadWallpaper is a no-op when the image reference is
absent or empty; for a present non-empty reference it clicks a
client-side save action whose file name embeds the Date.now()
timestamp and whose href is the current image reference. -/
theorem download_behaviour (img : Option String) (now : Nat) :
    ((img = none ∨ img = some "") → downloadWallpaper img now = none) ∧
    (∀ u, img = some u → u ≠ "" →
      downloadWallpaper img now =
        some { href := u,
               filename := "wallpaper-" ++ toString now ++ ".jpg",
               target := "_blank" }) := by
  refine ⟨?_, ?_⟩
  · intro hcase
    rcases hcase with h | h <;> subst h <;>
      simp [downloadWallpaper, jsTruthy]
  · intro u hu hne
    subst hu
    simp [downloadWallpaper, jsTruthy, hne]

/-- Witness for the amended C9 theorem at a concrete reference and
timestamp. -/
theorem download_behaviour_witness :
    downloadWallpaper (some "https://x/y.jpg") 1726000000000 =
      some { href := "https://x/y.jpg",
             filename := "wallpaper-" ++ toString 1726000000000 ++ ".jpg",
             target := "_blank" } :=
  (download_behaviour (some "https://x/y.jpg") 1726000000000).2
    "https://x/y.jpg" rfl (by decide)

/-- C10: a submission that ends Failed — whether the server reported
failure or the transport failed — leaves the stored image reference at
its prior value; in particular a reference from an earlier success
stays set alongside the newly stored error message. -/
theorem failed_submission_preserves_image (env : Option String)
    (s : ControllerState) (imageUrl err : Option String) (detail : String) :
    (generateWallpaper env s
        (.response false imageUrl err)).state.generatedImage
      = s.generatedImage ∧
    (generateWallpaper env s
        (.transportFailure detail)).state.generatedImage
      = s.generatedImage ∧
    (∀ u, s.generatedImage = some u → jsTrim s.prompt ≠ "" →
      (generateWallpaper env s
          (.response false imageUrl err)).state.generatedImage = some u ∧
      (generateWallpaper env s
          (.response false imageUrl err)).state.error.isSome = true) := by
  by_cases hp : jsTrim s.prompt = ""
  · have h1 := submitPre_empty env s hp
    refine ⟨by simp [generateWallpaper, h1],
            by simp [generateWallpaper, h1], ?_⟩
    intro u hu hne
    exact absurd hp hne
  · have h1 := submitPre_nonempty env s hp
    refine ⟨by simp [generateWallpaper, h1, submitPost],
            by simp [generateWallpaper, h1, submitPost], ?_⟩
    intro u hu hne
    simp [generateWallpaper, h1, submitPost, hu]

/-- Witness for the C10 theorem: a server-rejected resubmission from a
component already holding a generated image keeps that image alongside
the new error. -/
theorem failed_submission_preserves_image_witness :
    (generateWallpaper none priorImageState
        (.response false none (some "bad"))).state.generatedImage
      = priorImageState.generatedImage ∧
    (generateWallpaper none priorImageState
        (.transportFailure "boom")).state.generatedImage
      = priorImageState.generatedImage ∧
    (∀ u, priorImageState.generatedImage = some u →
      jsTrim priorImageState.prompt ≠ "" →
      (generateWallpaper none priorImageState
          (.response false none (some "bad"))).state.generatedImage = some u ∧
      (generateWallpaper none priorImageState
          (.response false none (some "bad"))).state.error.isSome = true) :=
  failed_submission_preserves_image none priorImageState
    none (some "bad") "boom"

end WallpaperApp
